import Mathlib

/-!
Shallow embedding of the coordination core of the customer-support email
agent (files `emailer.py`, `main.py`, `telegram_bot.py`).

Conventions of the embedding:
* timestamps are natural numbers; transport calls (IMAP fetch/search, SMTP
  send, Telegram send) are oracles passed in as explicit function arguments;
* a Python function that can raise is modelled with `Except`/`Option`, or by
  an explicit boolean input selecting the raising branch;
* Python dictionaries (`pending_actions`, `active_tasks`) are modelled as
  `String`-indexed partial maps, respectively key lists.
-/

/-- The `Email` class of `emailer.py` (field order as in `__init__` body). -/
structure Email where
  id : String
  to_address : String
  from_address : String
  subject : String
  body : String
  date : Nat
  message_id : String
  references : String
deriving Repr, DecidableEq

/-- Result of transport fetch plus MIME decoding of one message, i.e. the
headers that `Emailer._parse_email` reads off `email.message_from_bytes`.
`dateHeader = none` models a missing or unparseable `Date` header (the
`parsedate_to_datetime` call failing). -/
structure RawEmail where
  subject : String
  from_address : String
  to_address : String
  body : String
  message_id : String
  references : String
  dateHeader : Option Nat
deriving Repr, DecidableEq

/-- `Emailer._parse_email`: `None` when the fetch returns no usable data;
otherwise an `Email` whose `date` defaults to the current time (`now`) when
the `Date` header is missing or unparseable. -/
def parse_email (now : Nat) (fetchResult : Option RawEmail) (email_id : String) :
    Option Email :=
  match fetchResult with
  | none => none
  | some raw =>
    some ⟨email_id, raw.to_address, raw.from_address, raw.subject, raw.body,
      raw.dateHeader.getD now, raw.message_id, raw.references⟩

/-- The IMAP store as seen by thread reconstruction: `fetch` is
`imap_conn.fetch` + decode (`none` = failure/empty), `thrid` is the
`(X-GM-THRID)` fetch plus regex match, `searchThrid` is
`search(None, "X-GM-THRID <id>")`, `refHeader` is the
`BODY.PEEK[HEADER.FIELDS (REFERENCES)]` fetch (`none` = no data), and
`searchRef` is `search(None, (HEADER Message-ID "<ref>"))`. -/
structure Mailbox where
  fetch : String → Option RawEmail
  thrid : String → Option String
  searchThrid : String → List String
  refHeader : String → Option String
  searchRef : String → List String

/-- Comparison key used by `thread.sort(key=lambda e: e.date)`. -/
def dateLe (a b : Email) : Bool := a.date ≤ b.date

/-- Embedding of `re.findall(r"<([^>]+)>", ref_line)`: scan the characters,
start collecting at `<`, emit the (nonempty) collected run at the closing
`>`. The accumulator is the current token, reversed; `none` means we are
outside a token. -/
def angleScan : List Char → Option (List Char) → List String
  | [], _ => []
  | c :: rest, none =>
    if c = '<' then angleScan rest (some []) else angleScan rest none
  | c :: rest, some acc =>
    if c = '>' then
      if acc.isEmpty then angleScan rest none
      else String.mk acc.reverse :: angleScan rest none
    else angleScan rest (some (c :: acc))

/-- The reference tokens of a `References` header line. -/
def findRefs (s : String) : List String := angleScan s.data none

/-- One step of the reference-fallback accumulation in
`Emailer._get_email_thread`: parse the search hit and append it unless an
email with the same id is already in the thread (dedup by id). -/
def addRefEmail (mb : Mailbox) (now : Nat) (thread : List Email)
    (ref_id : String) : List Email :=
  match parse_email now (mb.fetch ref_id) ref_id with
  | some ref_email =>
    if (thread.map Email.id).contains ref_email.id then thread
    else thread ++ [ref_email]
  | none => thread

/-- The provider-grouping branch of `Emailer._get_email_thread`
(lines 337–342): parse every member of the thread group, drop individual
fetch failures, and stable-sort ascending by date.  Python `list.sort` is
a stable ascending sort, modelled by `List.mergeSort`. -/
def threadFromGroup (mb : Mailbox) (now : Nat) (thread_ids : List String) :
    List Email :=
  List.mergeSort
    (thread_ids.filterMap (fun mid => parse_email now (mb.fetch mid) mid)) dateLe

/-- The `REFERENCES`-header fallback of `Emailer._get_email_thread`
(lines 344–365): when the header fetch returns data, search each referenced
message id, append unseen hits to `[seed]`, and stable-sort by date;
otherwise the thread stays `[seed]`. -/
def refFallback (mb : Mailbox) (now : Nat) (e : Email) : List Email :=
  match mb.refHeader e.id with
  | some ref_line =>
    List.mergeSort
      ((findRefs ref_line).foldl
        (fun acc ref => (mb.searchRef ref).foldl (addRefEmail mb now) acc) [e])
      dateLe
  | none => [e]

/-- `Emailer._get_email_thread`: empty when the seed cannot be fetched or
parsed; otherwise the Gmail thread-group branch when `X-GM-THRID` matches
and the group search is nonempty, else the `REFERENCES` fallback. -/
def get_email_thread (mb : Mailbox) (now : Nat) (email_id : String) :
    List Email :=
  match parse_email now (mb.fetch email_id) email_id with
  | none => []
  | some e =>
    match mb.thrid e.id with
    | some thread_id =>
      match mb.searchThrid thread_id with
      | [] => refFallback mb now e
      | mid :: mids => threadFromGroup mb now (mid :: mids)
    | none => refFallback mb now e

/-- `Emailer._get_unread_emails`: reconstruct a thread for every unseen
message id and collect the threads, with no emptiness filter. -/
def get_unread_emails (mb : Mailbox) (now : Nat) (unseenIds : List String) :
    List (List Email) :=
  unseenIds.map (get_email_thread mb now)

/-! ## Conversation registry (`active_tasks` in `main.py`) -/

/-- The check-then-insert gate of `process_with_draft_handling`
(lines 305–310): `if email_id in active_tasks: continue` followed by
`active_tasks[email_id] = t`. -/
def tryAcquire (reg : List String) (k : String) : Bool × List String :=
  if reg.contains k then (false, reg) else (true, k :: reg)

/-- `active_tasks.pop(email_id, None)`: unconditionally remove the key;
removing an absent key is a no-op.  Registry states built by `tryAcquire`
never hold a key twice, on which dictionary removal and `filter` agree. -/
def release (reg : List String) (k : String) : List String :=
  reg.filter (fun x => x ≠ k)

/-- Repeated acquire attempts for the same key with no intervening release,
collecting the boolean outcome of each attempt. -/
def tryAcquireSeq (reg : List String) (k : String) : Nat → List Bool
  | 0 => []
  | Nat.succ n =>
    (tryAcquire reg k).1 :: tryAcquireSeq (tryAcquire reg k).2 k n

/-! ## Delivery retry loop (`Emailer.process`, lines 446–491) -/

/-- Outcome of one send attempt inside the retry loop, mirroring the
`except` arms: `smtplib.SMTPServerDisconnected`, `SMTPResponseException`
with code 451, `SMTPResponseException` with any other code, and any other
exception.  (A reconnect call that itself raises inside the 451/disconnect
arms would abort the whole processing pass; such runs have no completed
attempt outcome and are outside this model.) -/
inductive SendOutcome where
  | success
  | disconnected
  | timeout451
  | otherCode
  | otherError
deriving Repr, DecidableEq

/-- The observable result of the retry loop: whether a send succeeded, how
many attempts ran, and the recorded backoff waits (the `asyncio.sleep`
arguments, in order). -/
structure RetryResult where
  success : Bool
  attempts : Nat
  sleeps : List Nat
deriving Repr, DecidableEq

/-- The `for attempt in range(1, max_retries + 1)` loop of
`Emailer.process`: `behavior attempt` is what the transport does on that
attempt.  `success` breaks out; a disconnect reconnects and retries without
waiting and without touching `retry_delay`; the rate/timeout and generic
arms sleep `retry_delay` and double it. -/
def retry_loop (behavior : Nat → SendOutcome) :
    Nat → Nat → Nat → RetryResult
  | _, _, 0 => ⟨false, 0, []⟩
  | attempt, retry_delay, Nat.succ fuel =>
    match behavior attempt with
    | SendOutcome.success => ⟨true, 1, []⟩
    | SendOutcome.disconnected =>
      let r := retry_loop behavior (attempt + 1) retry_delay fuel
      ⟨r.success, r.attempts + 1, r.sleeps⟩
    | SendOutcome.timeout451 =>
      let r := retry_loop behavior (attempt + 1) (retry_delay * 2) fuel
      ⟨r.success, r.attempts + 1, retry_delay :: r.sleeps⟩
    | SendOutcome.otherCode =>
      let r := retry_loop behavior (attempt + 1) (retry_delay * 2) fuel
      ⟨r.success, r.attempts + 1, retry_delay :: r.sleeps⟩
    | SendOutcome.otherError =>
      let r := retry_loop behavior (attempt + 1) (retry_delay * 2) fuel
      ⟨r.success, r.attempts + 1, retry_delay :: r.sleeps⟩

/-- The loop as entered by `Emailer.process`: `max_retries = 3`,
`retry_delay = 2`, attempts numbered from 1. -/
def send_with_retry (behavior : Nat → SendOutcome) : RetryResult :=
  retry_loop behavior 1 2 3

/-- Tail of `Emailer.process` for one message: `(sent, marked_read)`.
`if not success: continue` skips the `mark_as_read` call, so a message
whose delivery failed stays unread. -/
def process_one_email (behavior : Nat → SendOutcome) (mark_read : Bool) :
    Bool × Bool :=
  let r := send_with_retry behavior
  (r.success, r.success && mark_read)

/-! ## Approval rendezvous (`telegram_bot.py`) -/

/-- One entry of `self.pending_actions` (`telegram_bot.py`, lines 315–320):
the thread, the draft, the `asyncio.Event` state, and the decision slot. -/
structure PendingAction where
  email_thread : List Email
  draft_email : Email
  event_set : Bool
  result : Option Email
deriving Repr, DecidableEq

/-- The `pending_actions` dictionary, as a partial map on the correlation
key (`unique_id`). -/
def PendingMap : Type := String → Option PendingAction

/-- Dictionary assignment `pending_actions[k] = v`. -/
def setPending (st : PendingMap) (k : String) (v : PendingAction) : PendingMap :=
  fun q => if q = k then some v else st q

/-- `del pending_actions[k]` (on the paths where the key is present). -/
def delPending (st : PendingMap) (k : String) : PendingMap :=
  fun q => if q = k then none else st q

/-- The empty dictionary. -/
def emptyPending : PendingMap := fun _ => none

/-- `unique_id = most_recent.id or str(datetime.now().timestamp())`:
`""` is falsy, so an absent id falls back to the timestamp string. -/
def unique_id_of (most_recent : Email) (now_ts : String) : String :=
  if most_recent.id = "" then now_ts else most_recent.id

/-- Externally observable events of `notify_and_wait_for_action` up to its
suspension point, in program order. -/
inductive NotifyEvent where
  | notificationSent (chat_id : String) (key : String)
  | pendingRegistered (key : String)
  | waitStarted (key : String)
deriving Repr, DecidableEq

/-- `TelegramBot.notify_and_wait_for_action` up to the `asyncio.wait_for`
suspension (lines 235–326), returning the updated `pending_actions` map and
the chronological event trace.  An empty thread returns early with no
events.  The `send_message` call (line 285, with the plain-text retry of
line 304 folded in) happens first; the `pending_actions[unique_id] = {...}`
registration (line 315) happens after the send; the wait starts last. -/
def notify_phase (chat_id : String) (st : PendingMap) (email_thread : List Email)
    (draft_email : Email) (now_ts : String) : PendingMap × List NotifyEvent :=
  match email_thread.getLast? with
  | none => (st, [])
  | some most_recent =>
    let uid := unique_id_of most_recent now_ts
    (setPending st uid ⟨email_thread, draft_email, false, none⟩,
     [NotifyEvent.notificationSent chat_id uid,
      NotifyEvent.pendingRegistered uid,
      NotifyEvent.waitStarted uid])

/-- The two email-action buttons of the notification. -/
inductive ButtonAction where
  | send
  | draft
deriving Repr, DecidableEq

/-- The email-action part of `TelegramBot._button_callback`
(lines 154–218): when the key is present, write the decision into the entry
(`result = draft_email` for send, `result = None` for draft) and set the
event — with no check whether the event was already set; when the key is
absent, the "action has expired" message is shown and nothing is recorded. -/
def button_callback (st : PendingMap) (email_id : String)
    (action : ButtonAction) : PendingMap :=
  match st email_id with
  | some entry =>
    match action with
    | ButtonAction.send =>
      setPending st email_id
        ⟨entry.email_thread, entry.draft_email, true, some entry.draft_email⟩
    | ButtonAction.draft =>
      setPending st email_id ⟨entry.email_thread, entry.draft_email, true, none⟩
  | none => st

/-- Outcome of the wait: either `notify_and_wait_for_action` returns a
decision with an updated map, or an exception propagates out of it leaving
the map as it was. -/
inductive WaitOutcome where
  | returned (decision : Option Email) (st : PendingMap)
  | raised (st : PendingMap)

/-- The resumption of `notify_and_wait_for_action` (lines 324–341).
Normal wake (the event fired in time): read `result`, delete the entry,
return the decision; a missing entry would be a `KeyError`.  Timeout:
`edit_message_reply_markup` removes the buttons — this call is not guarded,
so when it raises (`edit_ok = false`) the exception propagates before the
`del` and the `return None` are reached. -/
def wait_phase (st : PendingMap) (uid : String) (timed_out : Bool)
    (edit_ok : Bool) : WaitOutcome :=
  if timed_out then
    if edit_ok then WaitOutcome.returned none (delPending st uid)
    else WaitOutcome.raised st
  else
    match st uid with
    | some entry => WaitOutcome.returned entry.result (delPending st uid)
    | none => WaitOutcome.raised st

/-! ## Orchestrator (`main.py`) -/

/-- The sentinel returned by `respond` after saving a draft
(`main.py`, lines 181–188). -/
def draft_marker : Email :=
  ⟨"DRAFT_MARKER", "DRAFT_MARKER", "DRAFT_MARKER", "DRAFT_MARKER",
   "DRAFT_MARKER", 0, "", ""⟩

/-- The draft reply built by `respond` (lines 154–159): addressed back to
the sender, same subject, agent body, and a fresh (empty) id. -/
def mkDraft (most_recent : Email) (body_html : String) : Email :=
  ⟨"", most_recent.from_address, most_recent.to_address, most_recent.subject,
   body_html, 0, "", ""⟩

/-- What the approval-channel interaction did, as seen by `respond`:
`notify_and_wait_for_action` returned a decision, or it (or the
notification send inside it) raised. -/
inductive TelegramResult where
  | choice (r : Option Email)
  | raised
deriving Repr, DecidableEq

/-- `respond` (`main.py`, lines 103–200), after the agent ran:
`agent_unsure` is the case-insensitive "not sure" check on the agent
output (returns `None`, message stays unread); with a Telegram bot, a
`send` choice returns the approved email, a `draft`/timeout choice saves a
draft and returns the `DRAFT_MARKER` sentinel, and an exception from the
Telegram path falls back to returning the draft for direct sending; with
no bot the draft is returned directly. -/
def respond_model (telegram_configured : Bool) (agent_unsure : Bool)
    (tg : TelegramResult) (most_recent : Email) (body_html : String) :
    Option Email :=
  if agent_unsure then none
  else
    let draft_email := mkDraft most_recent body_html
    if telegram_configured then
      match tg with
      | TelegramResult.choice (some result) => some result
      | TelegramResult.choice none => some draft_marker
      | TelegramResult.raised => some draft_email
    else some draft_email

/-- What `handle_thread` did for one thread. -/
inductive HandleResult where
  | draftSaved
  | sent (e : Email)
  | errorLogged
deriving Repr, DecidableEq

/-- `handle_thread` (`main.py`, lines 258–283): `respond_result` is the
result of `await respond(email_thread)` (`Except.error` = it raised);
`smtp_ok` says whether the SMTP connect/send/quit/mark-read block ran
without raising.  Every branch, including the exception branch, falls
through to the `finally` that pops the registry key. -/
def handle_thread (reg : List String) (email_id : String)
    (respond_result : Except Unit (Option Email)) (smtp_ok : Bool) :
    HandleResult × List String :=
  let result :=
    match respond_result with
    | Except.error _ => HandleResult.errorLogged
    | Except.ok none => HandleResult.draftSaved
    | Except.ok (some response) =>
      if response.id = "DRAFT_MARKER" then HandleResult.draftSaved
      else if smtp_ok then HandleResult.sent response
      else HandleResult.errorLogged
  (result, release reg email_id)

/-- The spawn loop of `process_with_draft_handling` (lines 299–311):
for each thread, `most_recent = thread[-1]` — an `IndexError` on an empty
thread, modelled as `Except.error` — then skip if the key is active, else
acquire it and record the spawned key. -/
def spawn_threads (reg : List String) :
    List (List Email) → Except String (List String × List String)
  | [] => Except.ok (reg, [])
  | thread :: rest =>
    match thread.getLast? with
    | none => Except.error "IndexError: list index out of range"
    | some most_recent =>
      match tryAcquire reg most_recent.id with
      | (false, _) => spawn_threads reg rest
      | (true, regNext) =>
        match spawn_threads regNext rest with
        | Except.ok (regFinal, spawned) =>
          Except.ok (regFinal, most_recent.id :: spawned)
        | Except.error s => Except.error s

/-- `process_with_draft_handling` (lines 286–313): reconstruct the unread
threads and spawn a handling task per new conversation key.  Any exception
(including the empty-thread `IndexError`) propagates to the caller. -/
def process_with_draft_handling (mb : Mailbox) (now : Nat)
    (unseenIds : List String) (reg : List String) :
    Except String (List String × List String) :=
  spawn_threads reg (get_unread_emails mb now unseenIds)

/-- What one iteration of the `while True` poll loop in `main` does:
completes normally, completes while some spawned task faulted (the fault is
caught inside `handle_thread`), or itself raises. -/
inductive CycleEvent where
  | cycleOk
  | taskFault
  | cycleRaises (msg : String)
deriving Repr, DecidableEq

/-- How a run of the poll loop ended. -/
inductive LoopEnd where
  | exhausted
  | faultExit (msg : String)
deriving Repr, DecidableEq

/-- The `while True` loop of `main` (lines 352–363) run over a script of
cycle behaviors, counting completed cycles.  The `try`/`except` that logs
faults sits outside the `while`, so an exception escaping a cycle ends the
loop: the remaining cycles never run. -/
def main_loop : List CycleEvent → Nat × LoopEnd
  | [] => (0, LoopEnd.exhausted)
  | CycleEvent.cycleRaises m :: _ => (0, LoopEnd.faultExit m)
  | CycleEvent.cycleOk :: rest =>
    let r := main_loop rest
    (r.1 + 1, r.2)
  | CycleEvent.taskFault :: rest =>
    let r := main_loop rest
    (r.1 + 1, r.2)

/-- The cycle behavior produced by an actual poll over the mailbox. -/
def cycle_event (mb : Mailbox) (now : Nat) (unseenIds : List String)
    (reg : List String) : CycleEvent :=
  match process_with_draft_handling mb now unseenIds reg with
  | Except.ok _ => CycleEvent.cycleOk
  | Except.error m => CycleEvent.cycleRaises m

/-- The decision the callback writes for a given button: the stored draft
for `send`, `None` for `draft`. -/
def decision_of (draft : Email) : ButtonAction → Option Email
  | ButtonAction.send => some draft
  | ButtonAction.draft => none

/-! ## Concrete sample data used by witnesses and counterexamples -/

/-- A sample inbound support email. -/
def emailM : Email :=
  ⟨"m1", "support@x.com", "alice@x.com", "Help", "How do I reset my password",
   5, "<mid1>", ""⟩

/-- A sample generated draft reply (fresh id, as built by `respond`). -/
def draftD : Email :=
  ⟨"", "alice@x.com", "support@x.com", "Help", "Click Forgot Password",
   0, "", ""⟩

/-- The `pending_actions` map right after `notify_and_wait_for_action`
registered the sample thread. -/
def stReg : PendingMap :=
  (notify_phase "chat" emptyPending [emailM] draftD "ts").1

/-- `stReg` after the user pressed the send button once: decision written,
event fired. -/
def stAfterSend : PendingMap := button_callback stReg "m1" ButtonAction.send

/-- A mailbox on which every fetch fails (or returns no data). -/
def mbAllFail : Mailbox :=
  ⟨fun _ => none, fun _ => none, fun _ => [], fun _ => none, fun _ => []⟩

/-- Raw messages of a two-member Gmail thread group with equal dates. -/
def rawA : RawEmail :=
  ⟨"Help", "alice@x.com", "support@x.com", "first", "", "", some 3⟩

/-- Second member of the sample group, same date as `rawA`. -/
def rawB : RawEmail :=
  ⟨"Help", "bob@x.com", "support@x.com", "second", "", "", some 3⟩

/-- A raw message with a missing (or unparseable) `Date` header. -/
def rawND : RawEmail :=
  ⟨"Help", "carol@x.com", "support@x.com", "nodate", "", "", none⟩

/-- A mailbox whose thread-group search discovers `rawA` then `rawB`. -/
def mbGroup : Mailbox :=
  ⟨fun i => if i = "a" then some rawA else if i = "b" then some rawB else none,
   fun _ => some "g", fun _ => ["a", "b"], fun _ => none, fun _ => []⟩

/-- `rawA` as parsed under id `"a"`. -/
def emailA : Email :=
  ⟨"a", "support@x.com", "alice@x.com", "Help", "first", 3, "", ""⟩

/-- `rawB` as parsed under id `"b"`. -/
def emailB : Email :=
  ⟨"b", "support@x.com", "bob@x.com", "Help", "second", 3, "", ""⟩

/-- Transport behavior: rate/timeout failures on attempts 1 and 2, success
on attempt 3. -/
def behaviorTwoFail : Nat → SendOutcome := fun n =>
  if n = 3 then SendOutcome.success else SendOutcome.timeout451

/-- Transport behavior: every attempt fails with a generic error. -/
def behaviorAllFail : Nat → SendOutcome := fun _ => SendOutcome.otherError

/-- Transport behavior: disconnect on the first attempt, then success. -/
def behaviorDisc : Nat → SendOutcome := fun n =>
  if n = 1 then SendOutcome.disconnected else SendOutcome.success

/-! ## Theorems -/

/-- `dateLe` is transitive. -/
theorem dateLe_trans (a b c : Email) : dateLe a b → dateLe b c → dateLe a c := by
  simp only [dateLe, decide_eq_true_eq]
  omega

/-- `dateLe` is total. -/
theorem dateLe_total (a b : Email) : dateLe a b || dateLe b a := by
  simp only [dateLe, Bool.or_eq_true, decide_eq_true_eq]
  omega

/-- A stable sort by `dateLe` is ascending in the date field. -/
theorem pairwise_date_mergeSort (l : List Email) :
    List.Pairwise (fun a b => a.date ≤ b.date) (List.mergeSort l dateLe) :=
  (List.sorted_mergeSort dateLe_trans dateLe_total l).imp
    (fun hab => by simpa [dateLe] using hab)

/-- The reference fallback yields a date-ascending thread. -/
theorem pairwise_date_refFallback (mb : Mailbox) (now : Nat) (e : Email) :
    List.Pairwise (fun a b => a.date ≤ b.date) (refFallback mb now e) := by
  unfold refFallback
  cases mb.refHeader e.id
  · exact List.Pairwise.cons (by simp) List.Pairwise.nil
  · exact pairwise_date_mergeSort _

/-- Every reconstructed thread is date-ascending, on every branch. -/
theorem pairwise_date_get_email_thread (mb : Mailbox) (now : Nat) (seed : String) :
    List.Pairwise (fun a b => a.date ≤ b.date) (get_email_thread mb now seed) := by
  unfold get_email_thread
  split
  · exact List.Pairwise.nil
  · split
    · split
      · exact pairwise_date_refFallback mb now _
      · exact pairwise_date_mergeSort _
    · exact pairwise_date_refFallback mb now _

/-- The group branch returns exactly the parsed group members. -/
theorem threadFromGroup_perm (mb : Mailbox) (now : Nat) (ids : List String) :
    List.Perm (threadFromGroup mb now ids)
      (ids.filterMap (fun mid => parse_email now (mb.fetch mid) mid)) :=
  List.mergeSort_perm _ _

/-- Stability of the group-branch sort: a pair already in date order in the
discovery list stays in that order in the result. -/
theorem threadFromGroup_stable (mb : Mailbox) (now : Nat) (ids : List String)
    (a b : Email) (hab : dateLe a b = true)
    (h : List.Sublist [a, b]
      (ids.filterMap (fun mid => parse_email now (mb.fetch mid) mid))) :
    List.Sublist [a, b] (threadFromGroup mb now ids) :=
  List.pair_sublist_mergeSort dateLe_trans dateLe_total hab h

/-- A released registry no longer holds the key. -/
theorem contains_release (reg : List String) (k : String) :
    (release reg k).contains k = false := by
  simp [release]

/-- Acquire attempts on a registry that already holds the key all fail and
leave the registry unchanged. -/
theorem tryAcquireSeq_of_contains (k : String) (n : Nat) :
    ∀ reg : List String, reg.contains k = true →
      tryAcquireSeq reg k n = List.replicate n false := by
  induction n with
  | zero => intro reg _; rfl
  | succ n ih =>
    intro reg h
    have hrec := ih reg h
    have hm : k ∈ reg := by simpa using h
    simp [tryAcquireSeq, tryAcquire, hm, List.replicate_succ, hrec]

/-- Unfolding: exhausted budget. -/
theorem retry_loop_zero (b : Nat → SendOutcome) (a d : Nat) :
    retry_loop b a d 0 = ⟨false, 0, []⟩ := rfl

/-- Unfolding: a successful attempt ends the loop. -/
theorem retry_loop_success_step (b : Nat → SendOutcome) (a d f : Nat)
    (h : b a = SendOutcome.success) :
    retry_loop b a d (Nat.succ f) = ⟨true, 1, []⟩ := by
  rw [retry_loop, h]

/-- Unfolding: a disconnect reconnects and retries at once, recording no
wait and passing the backoff delay on unchanged. -/
theorem retry_loop_disconnect_step (b : Nat → SendOutcome) (a d f : Nat)
    (h : b a = SendOutcome.disconnected) :
    retry_loop b a d (Nat.succ f) =
      ⟨(retry_loop b (a + 1) d f).success,
       (retry_loop b (a + 1) d f).attempts + 1,
       (retry_loop b (a + 1) d f).sleeps⟩ := by
  rw [retry_loop, h]

/-- Unfolding: a 451 timeout sleeps the current delay and doubles it. -/
theorem retry_loop_timeout_step (b : Nat → SendOutcome) (a d f : Nat)
    (h : b a = SendOutcome.timeout451) :
    retry_loop b a d (Nat.succ f) =
      ⟨(retry_loop b (a + 1) (d * 2) f).success,
       (retry_loop b (a + 1) (d * 2) f).attempts + 1,
       d :: (retry_loop b (a + 1) (d * 2) f).sleeps⟩ := by
  rw [retry_loop, h]

/-- Unfolding: any other SMTP response code sleeps and doubles likewise. -/
theorem retry_loop_otherCode_step (b : Nat → SendOutcome) (a d f : Nat)
    (h : b a = SendOutcome.otherCode) :
    retry_loop b a d (Nat.succ f) =
      ⟨(retry_loop b (a + 1) (d * 2) f).success,
       (retry_loop b (a + 1) (d * 2) f).attempts + 1,
       d :: (retry_loop b (a + 1) (d * 2) f).sleeps⟩ := by
  rw [retry_loop, h]

/-- Unfolding: a generic send error sleeps and doubles likewise. -/
theorem retry_loop_otherError_step (b : Nat → SendOutcome) (a d f : Nat)
    (h : b a = SendOutcome.otherError) :
    retry_loop b a d (Nat.succ f) =
      ⟨(retry_loop b (a + 1) (d * 2) f).success,
       (retry_loop b (a + 1) (d * 2) f).attempts + 1,
       d :: (retry_loop b (a + 1) (d * 2) f).sleeps⟩ := by
  rw [retry_loop, h]

/-- The recorded waits form the geometric sequence `d, 2d, 4d, ...`:
a wait is recorded exactly when the delay is doubled, and disconnects do
neither. -/
theorem retry_loop_sleeps_geometric (b : Nat → SendOutcome) :
    ∀ (f a d i : Nat), i < (retry_loop b a d f).sleeps.length →
      (retry_loop b a d f).sleeps.getD i 0 = d * 2 ^ i := by
  intro f
  induction f with
  | zero =>
    intro a d i h
    rw [retry_loop_zero] at h
    simp at h
  | succ f ih =>
    intro a d i h
    cases hb : b a
    case success =>
      rw [retry_loop_success_step b a d f hb] at h
      simp at h
    case disconnected =>
      rw [retry_loop_disconnect_step b a d f hb] at h ⊢
      exact ih (a + 1) d i h
    case timeout451 =>
      rw [retry_loop_timeout_step b a d f hb] at h ⊢
      cases i with
      | zero => simp
      | succ i =>
        have h2 : i < (retry_loop b (a + 1) (d * 2) f).sleeps.length := by
          simpa using h
        have hrec := ih (a + 1) (d * 2) i h2
        simp only [List.getD_cons_succ, hrec, pow_succ]
        ring
    case otherCode =>
      rw [retry_loop_otherCode_step b a d f hb] at h ⊢
      cases i with
      | zero => simp
      | succ i =>
        have h2 : i < (retry_loop b (a + 1) (d * 2) f).sleeps.length := by
          simpa using h
        have hrec := ih (a + 1) (d * 2) i h2
        simp only [List.getD_cons_succ, hrec, pow_succ]
        ring
    case otherError =>
      rw [retry_loop_otherError_step b a d f hb] at h ⊢
      cases i with
      | zero => simp
      | succ i =>
        have h2 : i < (retry_loop b (a + 1) (d * 2) f).sleeps.length := by
          simpa using h
        have hrec := ih (a + 1) (d * 2) i h2
        simp only [List.getD_cons_succ, hrec, pow_succ]
        ring

/-- C4: registry exclusivity and release — in any run of acquire attempts
for a key with no intervening release only the first succeeds; after a
release a fresh acquire succeeds; release is idempotent; and
`handle_thread` releases the key on its guaranteed-execution path for every
exit (draft saved, sent, delivery failure, or exception), leaving the key
absent. -/
theorem registry_exclusive_and_released :
    (∀ (reg : List String) (k : String) (n : Nat), reg.contains k = false →
        tryAcquireSeq reg k (n + 1) = true :: List.replicate n false)
    ∧ (∀ (reg : List String) (k : String),
        (tryAcquire (release reg k) k).1 = true)
    ∧ (∀ (reg : List String) (k : String),
        release (release reg k) k = release reg k)
    ∧ (∀ (reg : List String) (k : String) (rr : Except Unit (Option Email))
        (ok : Bool),
        (handle_thread reg k rr ok).2 = release reg k
          ∧ ((handle_thread reg k rr ok).2.contains k) = false) := by
  refine ⟨?_, ?_, ?_, ?_⟩
  · intro reg k n h
    have hm : k ∉ reg := by simpa using h
    have hc : (k :: reg).contains k = true := by simp
    simp [tryAcquireSeq, tryAcquire, hm, tryAcquireSeq_of_contains k n (k :: reg) hc]
  · intro reg k
    have hc := contains_release reg k
    have hm : k ∉ release reg k := by simpa using hc
    simp [tryAcquire, hm]
  · intro reg k
    simp [release, List.filter_filter]
  · intro reg k rr ok
    exact ⟨rfl, contains_release reg k⟩

/-- C4 witness: a concrete key on an empty registry — only the first of
three acquires succeeds, release re-enables acquire and is idempotent, and
every `handle_thread` exit leaves the registry without the key. -/
theorem registry_exclusive_and_released_witness :
    (([] : List String).contains "a" = false
        ∧ tryAcquireSeq [] "a" (2 + 1) = true :: List.replicate 2 false)
      ∧ (tryAcquire (release ["a"] "a") "a").1 = true
      ∧ release (release ["a"] "a") "a" = release ["a"] "a"
      ∧ (handle_thread ["a"] "a" (Except.error ()) true).2 = release ["a"] "a" :=
  ⟨⟨rfl, registry_exclusive_and_released.1 [] "a" 2 rfl⟩,
   registry_exclusive_and_released.2.1 ["a"] "a",
   registry_exclusive_and_released.2.2.1 ["a"] "a",
   (registry_exclusive_and_released.2.2.2 ["a"] "a" (Except.error ()) true).1⟩

/-- C6: delivery retry bound — failing sends on attempts 1 and 2 with a
success on attempt 3 yields a sent outcome after exactly 3 attempts; three
failures yield a failed outcome after exactly 3 attempts with no further
attempt, and the originating message is not marked read. -/
theorem delivery_retry_bound :
    (∀ behavior : Nat → SendOutcome,
        behavior 1 ≠ SendOutcome.success → behavior 2 ≠ SendOutcome.success →
        behavior 3 = SendOutcome.success →
        (send_with_retry behavior).success = true
          ∧ (send_with_retry behavior).attempts = 3)
    ∧ (∀ behavior : Nat → SendOutcome,
        behavior 1 ≠ SendOutcome.success → behavior 2 ≠ SendOutcome.success →
        behavior 3 ≠ SendOutcome.success →
        (send_with_retry behavior).success = false
          ∧ (send_with_retry behavior).attempts = 3
          ∧ process_one_email behavior true = (false, false)) := by
  constructor
  · intro b h1 h2 h3
    have u : send_with_retry b = retry_loop b 1 2 (Nat.succ (Nat.succ (Nat.succ 0))) := rfl
    rw [u]
    cases hb1 : b 1
    case success => exact absurd hb1 h1
    all_goals (
      cases hb2 : b 2
      case success => exact absurd hb2 h2
      all_goals simp [retry_loop, hb1, hb2, h3])
  · intro b h1 h2 h3
    have hmain : (send_with_retry b).success = false
        ∧ (send_with_retry b).attempts = 3 := by
      have u : send_with_retry b = retry_loop b 1 2 (Nat.succ (Nat.succ (Nat.succ 0))) := rfl
      rw [u]
      cases hb1 : b 1
      case success => exact absurd hb1 h1
      all_goals (
        cases hb2 : b 2
        case success => exact absurd hb2 h2
        all_goals (
          cases hb3 : b 3
          case success => exact absurd hb3 h3
          all_goals simp [retry_loop, hb1, hb2, hb3]))
    refine ⟨hmain.1, hmain.2, ?_⟩
    simp [process_one_email, hmain.1]

/-- C6 witness: a transport that fails attempts 1 and 2 and succeeds on 3
is sent in exactly 3 attempts; one that always fails ends failed after 3
attempts with the message left unread. -/
theorem delivery_retry_bound_witness :
    ((send_with_retry behaviorTwoFail).success = true
        ∧ (send_with_retry behaviorTwoFail).attempts = 3)
      ∧ ((send_with_retry behaviorAllFail).success = false
        ∧ (send_with_retry behaviorAllFail).attempts = 3
        ∧ process_one_email behaviorAllFail true = (false, false)) :=
  ⟨delivery_retry_bound.1 behaviorTwoFail (by decide) (by decide) (by decide),
   delivery_retry_bound.2 behaviorAllFail (by decide) (by decide) (by decide)⟩

/-- C7: backoff growth — every wait recorded by the retry loop is
`2 ^ (i + 1)` for its position `i` (2, 4, ...), so consecutive rate/timeout
failures sleep 2 then 4; a disconnect retries immediately, recording no
wait and passing the backoff delay on unchanged. -/
theorem backoff_doubles_and_disconnect_immediate :
    (∀ (behavior : Nat → SendOutcome) (i : Nat),
        i < (send_with_retry behavior).sleeps.length →
        (send_with_retry behavior).sleeps.getD i 0 = 2 ^ (i + 1))
    ∧ (∀ (behavior : Nat → SendOutcome) (a d f : Nat),
        behavior a = SendOutcome.disconnected →
        retry_loop behavior a d (Nat.succ f) =
          ⟨(retry_loop behavior (a + 1) d f).success,
           (retry_loop behavior (a + 1) d f).attempts + 1,
           (retry_loop behavior (a + 1) d f).sleeps⟩) := by
  constructor
  · intro b i h
    have hg := retry_loop_sleeps_geometric b 3 1 2 i h
    calc (send_with_retry b).sleeps.getD i 0 = 2 * 2 ^ i := hg
    _ = 2 ^ (i + 1) := by rw [pow_succ]; ring
  · intro b a d f h
    exact retry_loop_disconnect_step b a d f h

/-- C7 witness: two consecutive 451 timeouts record waits 2 then 4, and a
concrete disconnect on attempt 1 recurses with the same delay and no wait
recorded. -/
theorem backoff_doubles_witness :
    (0 < (send_with_retry behaviorTwoFail).sleeps.length
        ∧ (send_with_retry behaviorTwoFail).sleeps.getD 0 0 = 2 ^ (0 + 1))
      ∧ (1 < (send_with_retry behaviorTwoFail).sleeps.length
        ∧ (send_with_retry behaviorTwoFail).sleeps.getD 1 0 = 2 ^ (1 + 1))
      ∧ retry_loop behaviorDisc 1 2 (Nat.succ 2) =
          ⟨(retry_loop behaviorDisc 2 2 2).success,
           (retry_loop behaviorDisc 2 2 2).attempts + 1,
           (retry_loop behaviorDisc 2 2 2).sleeps⟩ :=
  ⟨⟨by decide, backoff_doubles_and_disconnect_immediate.1 behaviorTwoFail 0 (by decide)⟩,
   ⟨by decide, backoff_doubles_and_disconnect_immediate.1 behaviorTwoFail 1 (by decide)⟩,
   backoff_doubles_and_disconnect_immediate.2 behaviorDisc 1 2 2 (by decide)⟩

/-- C1 counterexample: in `notify_and_wait_for_action` the notification
send (line 285) precedes the registration of the pending entry (line 315):
on a concrete invocation the first emitted event is the send while the
pending-actions map still has no entry for the key, and a choice callback
arriving at that instant finds no entry and records no decision. -/
theorem notification_precedes_registration :
    (notify_phase "chat" emptyPending [emailM] draftD "ts").2
        = [NotifyEvent.notificationSent "chat" "m1",
           NotifyEvent.pendingRegistered "m1",
           NotifyEvent.waitStarted "m1"]
      ∧ emptyPending "m1" = none
      ∧ button_callback emptyPending "m1" ButtonAction.send = emptyPending :=
  ⟨rfl, rfl, rfl⟩

/-- C1 (amended): for every invocation with a nonempty thread the
notification send comes first and the pending entry is registered after
the send completes but before the waiter suspends; a callback arriving
while the entry is still absent is dropped without recording a decision. -/
theorem notify_sends_then_registers (chat_id : String) (st : PendingMap)
    (email_thread : List Email) (draft_email : Email) (now_ts : String)
    (m : Email) (h : email_thread.getLast? = some m) :
    (notify_phase chat_id st email_thread draft_email now_ts).2
        = [NotifyEvent.notificationSent chat_id (unique_id_of m now_ts),
           NotifyEvent.pendingRegistered (unique_id_of m now_ts),
           NotifyEvent.waitStarted (unique_id_of m now_ts)]
      ∧ (notify_phase chat_id st email_thread draft_email now_ts).1
            (unique_id_of m now_ts)
          = some ⟨email_thread, draft_email, false, none⟩
      ∧ (∀ a : ButtonAction, st (unique_id_of m now_ts) = none →
          button_callback st (unique_id_of m now_ts) a = st) := by
  refine ⟨?_, ?_, ?_⟩
  · simp [notify_phase, h]
  · simp [notify_phase, h, setPending]
  · intro a h0
    simp [button_callback, h0]

/-- C1 amended-claim witness: the concrete registration from
`notify_sends_then_registers` applied to the sample thread. -/
theorem notify_sends_then_registers_witness :
    ([emailM].getLast? = some emailM)
      ∧ (notify_phase "chat" emptyPending [emailM] draftD "ts").1
            (unique_id_of emailM "ts")
          = some ⟨[emailM], draftD, false, none⟩ :=
  ⟨rfl,
   (notify_sends_then_registers "chat" emptyPending [emailM] draftD "ts"
      emailM rfl).2.1⟩

/-- C2 counterexample: after a send choice the decision (`draftD`) is
written and the completion event fires; a second, later draft choice for
the same key is not ignored — the waiter then observes the second decision
(`none`, save-as-draft), not the first. -/
theorem second_decision_overwrites_first :
    stAfterSend "m1" = some ⟨[emailM], draftD, true, some draftD⟩
      ∧ wait_phase (button_callback stAfterSend "m1" ButtonAction.draft) "m1"
            false true
          = WaitOutcome.returned none
              (delPending (button_callback stAfterSend "m1" ButtonAction.draft)
                "m1")
      ∧ some draftD ≠ (none : Option Email) :=
  ⟨rfl, rfl, by decide⟩

/-- C2 (amended): while the entry exists every callback overwrites the
decision slot and fires the event, so the waiter observes the last decision
written before it resumes rather than the first; once the waiter has
resumed and deleted the entry, a further callback finds no entry and is
ignored. -/
theorem callback_last_write_wins (st : PendingMap) (uid : String)
    (entry : PendingAction) (a1 a2 : ButtonAction)
    (h : st uid = some entry) :
    wait_phase (button_callback (button_callback st uid a1) uid a2) uid
        false true
      = WaitOutcome.returned (decision_of entry.draft_email a2)
          (delPending (button_callback (button_callback st uid a1) uid a2) uid)
      ∧ (∀ (st2 : PendingMap) (a : ButtonAction), st2 uid = none →
          button_callback st2 uid a = st2) := by
  constructor
  · cases a1 <;> cases a2 <;>
      simp [button_callback, setPending, wait_phase, decision_of, h]
  · intro st2 a h2
    simp [button_callback, h2]

/-- C2 amended-claim witness: the registered sample entry, hit with send
then draft, yields the draft decision to the waiter. -/
theorem callback_last_write_wins_witness :
    stReg "m1" = some ⟨[emailM], draftD, false, none⟩
      ∧ wait_phase
            (button_callback (button_callback stReg "m1" ButtonAction.send)
              "m1" ButtonAction.draft) "m1" false true
          = WaitOutcome.returned
              (decision_of (⟨[emailM], draftD, false, none⟩ : PendingAction).draft_email
                ButtonAction.draft)
              (delPending
                (button_callback (button_callback stReg "m1" ButtonAction.send)
                  "m1" ButtonAction.draft) "m1") :=
  ⟨rfl,
   (callback_last_write_wins stReg "m1" ⟨[emailM], draftD, false, none⟩
      ButtonAction.send ButtonAction.draft rfl).1⟩

/-- C3 counterexample: with a registered entry, a timeout whose
button-withdrawal edit raises neither removes the entry nor returns
save-as-draft — the exception propagates and the entry is left behind. -/
theorem timeout_edit_failure_is_fatal :
    wait_phase stReg "m1" true false = WaitOutcome.raised stReg
      ∧ stReg "m1" = some ⟨[emailM], draftD, false, none⟩ :=
  ⟨rfl, rfl⟩

/-- C3 (amended): on timeout with no callback, when the button-withdrawal
edit succeeds the wait returns save-as-draft (`None`) and the entry is
removed; but the edit call is unguarded, so when it raises the exception
propagates out of the wait — the entry is not removed and save-as-draft is
not returned. -/
theorem timeout_draft_unless_edit_raises (st : PendingMap) (uid : String) :
    wait_phase st uid true true = WaitOutcome.returned none (delPending st uid)
      ∧ (delPending st uid) uid = none
      ∧ wait_phase st uid true false = WaitOutcome.raised st := by
  refine ⟨rfl, ?_, rfl⟩
  simp [delPending]

/-- C5 counterexample: a fault arising inside the handling of a message during a
poll cycle — the empty-thread `IndexError` produced when the seed fetch
fails — escapes `process_with_draft_handling`, and because the fault
handler of `main` sits outside the `while` loop, the loop terminates: the
scripted following cycle never runs. -/
theorem cycle_fault_terminates_loop :
    cycle_event mbAllFail 0 ["1"] []
        = CycleEvent.cycleRaises "IndexError: list index out of range"
      ∧ main_loop [cycle_event mbAllFail 0 ["1"] [], CycleEvent.cycleOk]
          = (0, LoopEnd.faultExit "IndexError: list index out of range") :=
  ⟨rfl, rfl⟩

/-- C5 (amended): faults inside a spawned handling task are caught at the
task boundary (`handle_thread` returns normally and releases the key) and
never terminate the poll loop; but a fault raised at the top level of the
loop — by the poll cycle itself, e.g. reconstruction or the IMAP
connection — is logged once and terminates the loop instead of continuing
to the next poll. -/
theorem poll_loop_fault_policy :
    (∀ script : List CycleEvent,
        (∀ c ∈ script, ∀ m, c ≠ CycleEvent.cycleRaises m) →
        main_loop script = (script.length, LoopEnd.exhausted))
    ∧ (∀ (m : String) (rest : List CycleEvent),
        main_loop (CycleEvent.cycleRaises m :: rest) = (0, LoopEnd.faultExit m))
    ∧ (∀ (reg : List String) (k : String) (ok : Bool),
        handle_thread reg k (Except.error ()) ok
          = (HandleResult.errorLogged, release reg k)) := by
  refine ⟨?_, fun m rest => rfl, fun reg k ok => rfl⟩
  intro script h
  induction script with
  | nil => rfl
  | cons c rest ih =>
    have hc := h c (List.mem_cons_self c rest)
    have hrest := ih (fun x hx m => h x (List.mem_cons_of_mem c hx) m)
    cases c with
    | cycleOk => simp [main_loop, hrest]
    | taskFault => simp [main_loop, hrest]
    | cycleRaises m => exact absurd rfl (hc m)

/-- C5 amended-claim witness: a script of ordinary and task-faulting cycles
runs to exhaustion, while a faulting cycle ends the loop at once. -/
theorem poll_loop_fault_policy_witness :
    main_loop [CycleEvent.cycleOk, CycleEvent.taskFault]
        = ([CycleEvent.cycleOk, CycleEvent.taskFault].length, LoopEnd.exhausted)
      ∧ main_loop [CycleEvent.cycleRaises "imap down", CycleEvent.cycleOk]
          = (0, LoopEnd.faultExit "imap down")
      ∧ handle_thread ["a"] "a" (Except.error ()) false
          = (HandleResult.errorLogged, release ["a"] "a") :=
  ⟨poll_loop_fault_policy.1 [CycleEvent.cycleOk, CycleEvent.taskFault]
      (by intro c hc m; fin_cases hc <;> simp),
   poll_loop_fault_policy.2.1 "imap down" [CycleEvent.cycleOk],
   poll_loop_fault_policy.2.2 ["a"] "a" false⟩

/-- C9: evaluation at the failing input — when the seed message cannot be
fetched, `_get_email_thread` returns the empty thread, `_get_unread_emails`
hands it through unfiltered, and `process_with_draft_handling` evaluates
`thread[-1]` on it, raising `IndexError` instead of handling it safely. -/
theorem empty_thread_reaches_handler :
    get_email_thread mbAllFail 0 "1" = []
      ∧ get_unread_emails mbAllFail 0 ["1"] = [[]]
      ∧ process_with_draft_handling mbAllFail 0 ["1"] []
          = Except.error "IndexError: list index out of range" :=
  ⟨rfl, rfl, rfl⟩

/-- C10: when the Telegram approval path raises, `respond` falls back to
returning the generated draft itself, and `handle_thread` then takes the
send branch — an email is sent although no human approval was obtained. -/
theorem telegram_failure_sends_without_approval :
    ∀ (most_recent : Email) (body_html : String) (reg : List String)
      (k : String),
      respond_model true false TelegramResult.raised most_recent body_html
          = some (mkDraft most_recent body_html)
        ∧ (mkDraft most_recent body_html).id ≠ "DRAFT_MARKER"
        ∧ (handle_thread reg k
              (Except.ok (respond_model true false TelegramResult.raised
                most_recent body_html)) true).1
            = HandleResult.sent (mkDraft most_recent body_html) := by
  intro m b reg k
  refine ⟨rfl, by simp [mkDraft], ?_⟩
  simp [handle_thread, respond_model, mkDraft]

/-- C8: thread ordering — every reconstructed thread is ascending in
`date` on every branch and for every discovery order; the group branch
returns exactly the parsed group members; a pair already in date order in
the discovery list (in particular, equal dates) keeps its relative order;
and a missing or unparseable date is assigned the current time at parse
time. -/
theorem thread_ordering_stability_and_date_default :
    (∀ (mb : Mailbox) (now : Nat) (seed : String),
        List.Pairwise (fun a b => a.date ≤ b.date) (get_email_thread mb now seed))
    ∧ (∀ (mb : Mailbox) (now : Nat) (ids : List String),
        List.Perm (threadFromGroup mb now ids)
          (ids.filterMap (fun mid => parse_email now (mb.fetch mid) mid)))
    ∧ (∀ (mb : Mailbox) (now : Nat) (ids : List String) (a b : Email),
        dateLe a b = true →
        List.Sublist [a, b]
          (ids.filterMap (fun mid => parse_email now (mb.fetch mid) mid)) →
        List.Sublist [a, b] (threadFromGroup mb now ids))
    ∧ (∀ (now : Nat) (raw : RawEmail) (mid : String), raw.dateHeader = none →
        Option.map Email.date (parse_email now (some raw) mid) = some now) :=
  ⟨pairwise_date_get_email_thread, threadFromGroup_perm, threadFromGroup_stable,
   fun now raw mid h => by simp [parse_email, h]⟩

/-- C8 witness: in the concrete two-member group with equal dates the pair
keeps its discovery order through the sort, and a concrete raw message with
no date parses to the supplied current time. -/
theorem thread_ordering_witness :
    dateLe emailA emailB = true
      ∧ List.Sublist [emailA, emailB] (threadFromGroup mbGroup 7 ["a", "b"])
      ∧ rawND.dateHeader = none
      ∧ Option.map Email.date (parse_email 7 (some rawND) "c") = some 7 :=
  ⟨by decide,
   thread_ordering_stability_and_date_default.2.2.1 mbGroup 7 ["a", "b"]
     emailA emailB (by decide) (List.Sublist.refl [emailA, emailB]),
   rfl,
   thread_ordering_stability_and_date_default.2.2.2 7 rawND "c" rfl⟩

/-- C10 witness: the fallback at a concrete thread and body — the draft is
returned and sent with no approval decision recorded. -/
theorem telegram_failure_witness :
    respond_model true false TelegramResult.raised emailM "Reset steps"
        = some (mkDraft emailM "Reset steps")
      ∧ (mkDraft emailM "Reset steps").id ≠ "DRAFT_MARKER"
      ∧ (handle_thread ["m1"] "m1"
            (Except.ok (respond_model true false TelegramResult.raised emailM
              "Reset steps")) true).1
          = HandleResult.sent (mkDraft emailM "Reset steps") :=
  telegram_failure_sends_without_approval emailM "Reset steps" ["m1"] "m1"
